import Mathlib

/-!
Verification development for the trip-planner HTTP façade
(`src/backend/trip-planner/main.py`) and its manual test driver
(`src/testing/test_run_endpoint.py`).

The Python code is shallowly embedded: bytes are `List Nat`, header
multimaps are association lists of strings, Python dicts are association
lists with unique keys (first match wins on lookup), and JSON values are
the inductive `JVal`.  External effectful collaborators (HTTP calls,
gzip, the stdlib JSON codec) enter as explicit inputs or function
parameters, so every definition is executable.
-/

/-- JSON values, as produced by Python's `json` module. -/
inductive JVal where
  | null
  | bool (b : Bool)
  | num (n : Int)
  | str (s : String)
  | arr (elems : List JVal)
  | obj (fields : List (String × JVal))

/-- Python truthiness (`bool(x)`) of a JSON value: `None`, `False`, `0`,
`""`, `[]` and `{}` are falsy, everything else is truthy. -/
def pyTruthy : JVal → Bool
  | .null => false
  | .bool b => b
  | .num n => n != 0
  | .str s => s != ""
  | .arr elems => !elems.isEmpty
  | .obj fields => !fields.isEmpty

/-- Python `str.lower()` restricted to ASCII letters (the only values the
code compares after lowercasing are ASCII). -/
def pyLower (s : String) : String := ⟨s.data.map Char.toLower⟩

/-- Python `dict.get(k)` on a string-valued dict (association list with
unique keys): value of the first matching key. -/
def pyDictGet (d : List (String × String)) (k : String) : Option String :=
  (d.find? (fun p => p.1 == k)).map (·.2)

/-- Python `k in d` membership test on a string-valued dict. -/
def pyDictContains (d : List (String × String)) (k : String) : Bool :=
  (d.find? (fun p => p.1 == k)).isSome

/-- Python `del d[k]` on a string-valued dict. -/
def pyDictDel (d : List (String × String)) (k : String) : List (String × String) :=
  d.filter (fun p => p.1 != k)

/-- Python `d[k] = v` on a string-valued dict: replace the value at an
existing key in place, otherwise append the new binding at the end. -/
def pyDictInsert : List (String × String) → String → String → List (String × String)
  | [], k, v => [(k, v)]
  | p :: rest, k, v => if p.1 == k then (k, v) :: rest else p :: pyDictInsert rest k v

/-- Python `dict(pairs)`: fold the pairs into a dict, later duplicate keys
overwriting earlier values (this is what `dict(response.headers)` does at
`main.py:130`). -/
def pyDict (pairs : List (String × String)) : List (String × String) :=
  pairs.foldl (fun d p => pyDictInsert d p.1 p.2) []

/-- Lookup in a JSON object's field list (Python `obj.get(k)` /
`obj[k]`). -/
def jGet (fields : List (String × JVal)) (k : String) : Option JVal :=
  (fields.find? (fun p => p.1 == k)).map (·.2)

/-- A starlette HTTP response as seen by middleware: status code, raw
header pairs (starlette stores header names lowercased), body bytes and
the `media_type` attribute. -/
structure HttpResponse where
  status : Nat
  headers : List (String × String)
  body : List Nat
  mediaType : Option String

/-- Starlette `Headers.get(k)`: the lookup key is lowercased and compared
against the stored (already lowercase) header names.  Used by the
interceptor at `main.py:120`. -/
def headersGet (hs : List (String × String)) (k : String) : Option String :=
  pyDictGet hs (pyLower k)

/-- The no-compress flag parse at `main.py:94-96`:
`query_params.get("noCompress", "").lower() in ["true", "1", "yes"]`.
The surrounding `try/except` only guards logging; the parse itself is a
total computation, so a failure path leaves the flag at `False`. -/
def parseNoCompress (query : List (String × String)) : Bool :=
  decide (pyLower ((pyDictGet query "noCompress").getD "")
    ∈ (["true", "1", "yes"] : List String))

/-- The observability block at `main.py:114-127`: if the response carries a
`content-encoding: gzip` header, gunzip a logging copy of the body, then
JSON-decode it for the log preview.  `gunzip` and `jparse` stand for
`gzip.decompress` and `bytes.decode` composed with `json.loads`; `none`
models the raised-and-caught exception path (the error is logged and
processing continues). -/
def runLogPreview (gunzip : List Nat → Option (List Nat))
    (jparse : List Nat → Option JVal) (resp : HttpResponse) : Option JVal :=
  let decoded := if headersGet resp.headers "content-encoding" = some "gzip"
                 then gunzip resp.body else some resp.body
  decoded.bind jparse

/-- Starlette `Response.init_headers` for the rebuilt response at
`main.py:136-141`: header names are lowercased, and `content-length` /
`content-type` (from `media_type`) are appended when absent. -/
def responseInitHeaders (headers : List (String × String)) (body : List Nat)
    (mediaType : Option String) : List (String × String) :=
  let raw := headers.map (fun p => (pyLower p.1, p.2))
  let raw := if (raw.find? (fun p => p.1 == "content-length")).isSome then raw
             else raw ++ [("content-length", toString body.length)]
  match mediaType with
  | some mt =>
      if (raw.find? (fun p => p.1 == "content-type")).isSome then raw
      else raw ++ [("content-type", mt)]
  | none => raw

/-- Result of one pass of the `/run` interceptor: the emitted response,
whether the body was buffered and a new `Response` built, and the JSON
value whose serialization is logged as the preview (`none` when no
preview is logged). -/
structure ProcessResult where
  response : HttpResponse
  rebuilt : Bool
  logPreview : Option JVal

/-- The `/run` branch of the interceptor (`main.py:107-141`): buffer the
body, compute the log preview, convert the headers to a Python dict,
delete the key `"Content-Encoding"` when the no-compress flag is set and
that exact key is present (`main.py:131-133` — note the dict membership
test is case-sensitive), and rebuild the response with the original
buffered bytes. -/
def buildRunResponse (gunzip : List Nat → Option (List Nat))
    (jparse : List Nat → Option JVal) (query : List (String × String))
    (resp : HttpResponse) : ProcessResult :=
  let no_compress := parseNoCompress query
  let body := resp.body
  let preview := runLogPreview gunzip jparse resp
  let headers := pyDict resp.headers
  let headers := if no_compress && pyDictContains headers "Content-Encoding"
                 then pyDictDel headers "Content-Encoding" else headers
  { response := { status := resp.status
                  headers := responseInitHeaders headers body resp.mediaType
                  body := body
                  mediaType := resp.mediaType }
    rebuilt := true
    logPreview := preview }

/-- The interceptor `process_run_response` (`main.py:89-143`): responses of
the `/run` path with status 200 are buffered and rebuilt, everything else
passes through untouched. -/
def process_run_response (gunzip : List Nat → Option (List Nat))
    (jparse : List Nat → Option JVal) (path : String)
    (query : List (String × String)) (resp : HttpResponse) : ProcessResult :=
  if path = "/run" ∧ resp.status = 200 then
    buildRunResponse gunzip jparse query resp
  else
    { response := resp, rebuilt := false, logPreview := none }

/-- A FastAPI `JSONResponse`: status code plus a JSON object body. -/
structure JsonResponse where
  status : Nat
  content : List (String × JVal)

/-- The global exception handler (`main.py:79-85`): every unhandled
exception becomes a 500 `JSONResponse` whose body carries the fixed
`detail` field and the exception's string description under `message`. -/
def global_exception_handler (excMsg : String) : JsonResponse :=
  { status := 500
    content := [("detail", JVal.str "Internal server error"),
                ("message", JVal.str excMsg)] }

/-- Modelled from the spec: the compression stage is starlette's
`GZipMiddleware`, third-party code registered (not defined) at
`main.py:56` with `minimum_size=1000`.  Per the spec it "compresses
response bodies at or above a minimum size threshold (1000 bytes) using a
standard content-encoding; below threshold, body passes through
uncompressed".  `compress` stands for the gzip encoder and `acceptsGzip`
for the request being compressible (client accepts the encoding). -/
def gzip_middleware (compress : List Nat → List Nat) (acceptsGzip : Bool)
    (resp : HttpResponse) : HttpResponse :=
  if acceptsGzip = true ∧ 1000 ≤ resp.body.length then
    { resp with body := compress resp.body
                headers := pyDictInsert resp.headers "content-encoding" "gzip" }
  else resp

/-- Looking up the key just inserted by `pyDictInsert` yields the new
value. -/
theorem pyDictGet_insert_self (d : List (String × String)) (k v : String) :
    pyDictGet (pyDictInsert d k v) k = some v := by
  induction d with
  | nil => simp [pyDictInsert, pyDictGet]
  | cons p rest ih =>
      by_cases h : p.1 = k
      · simp [pyDictInsert, pyDictGet, h]
      · simp only [pyDictInsert, beq_iff_eq, h, if_false]
        simpa [pyDictGet, h] using ih

/-- A concrete gzipped 200 response from the inner pipeline: starlette
stores header names lowercased, so the gzip marker sits under the key
`"content-encoding"`. -/
def gzipped200 : HttpResponse :=
  { status := 200
    headers := [("content-length", "4"), ("content-type", "application/json"),
                ("content-encoding", "gzip")]
    body := [31, 139, 8, 0]
    mediaType := some "application/json" }

/-- C1: the claim says that on a 200 `/run` response with the no-compress
flag set and a content-encoding header present, the emitted response has
that header removed while the body bytes are unchanged.  The body is
indeed unchanged, but the header is NOT removed: `main.py:131` tests the
capitalized key `"Content-Encoding"` against `dict(response.headers)`,
whose keys starlette normalizes to lowercase, so the deletion branch
never fires.  At the concrete reachable input below the flag parses true,
the gzip header is present, and the emitted response still carries it. -/
theorem C1_noCompress_header_never_removed :
    parseNoCompress [("noCompress", "true")] = true ∧
    headersGet gzipped200.headers "content-encoding" = some "gzip" ∧
    (process_run_response (fun _ => none) (fun _ => none) "/run"
        [("noCompress", "true")] gzipped200).response.body = gzipped200.body ∧
    headersGet (process_run_response (fun _ => none) (fun _ => none) "/run"
        [("noCompress", "true")] gzipped200).response.headers "content-encoding"
      = some "gzip" := by
  refine ⟨by decide, by decide, rfl, by decide⟩

/-- C2: the no-compress flag resolves to true exactly when the
`noCompress` query parameter is present and its lowercased value is
`"true"`, `"1"` or `"yes"`; for every other query (missing key, empty or
malformed value) it is false, and the interceptor still emits a response
with the inner status (in particular a malformed flag never turns a
response into a 500). -/
theorem C2_noCompress_flag_resolution (query : List (String × String)) :
    (parseNoCompress query = true ↔
      ∃ v, pyDictGet query "noCompress" = some v ∧
        (pyLower v = "true" ∨ pyLower v = "1" ∨ pyLower v = "yes")) ∧
    (∀ gunzip jparse path resp,
      (process_run_response gunzip jparse path query resp).response.status
        = resp.status) := by
  constructor
  · unfold parseNoCompress
    rcases h : pyDictGet query "noCompress" with _ | v
    · simp only [Option.getD_none, decide_eq_true_eq, List.mem_cons,
        List.not_mem_nil, or_false]
      constructor
      · rintro (he | he | he) <;> exact absurd he (by decide)
      · rintro ⟨w, hw, -⟩
        exact Option.noConfusion hw
    · simp only [Option.getD_some, decide_eq_true_eq, List.mem_cons,
        List.not_mem_nil, or_false]
      constructor
      · intro hmem
        exact ⟨v, rfl, hmem⟩
      · rintro ⟨w, hw, hmem⟩
        injection hw with hw
        subst hw
        exact hmem
  · intro gunzip jparse path resp
    unfold process_run_response
    split
    · rfl
    · rfl

/-- C3: every unhandled exception is converted by the global handler into
a response with status exactly 500 whose JSON body carries the fixed
`detail` field `"Internal server error"` and a `message` field equal to
the exception's string description. -/
theorem C3_global_exception_handler_shape (excMsg : String) :
    (global_exception_handler excMsg).status = 500 ∧
    jGet (global_exception_handler excMsg).content "detail"
      = some (JVal.str "Internal server error") ∧
    jGet (global_exception_handler excMsg).content "message"
      = some (JVal.str excMsg) :=
  ⟨rfl, rfl, rfl⟩

/-- C4: when the request path is not exactly `"/run"` or the inner status
is not 200, the interceptor returns the inner response itself, with no
body buffering (no rebuilt response) and no log preview. -/
theorem C4_non_run_passthrough (gunzip : List Nat → Option (List Nat))
    (jparse : List Nat → Option JVal) (path : String)
    (query : List (String × String)) (resp : HttpResponse)
    (h : path ≠ "/run" ∨ resp.status ≠ 200) :
    process_run_response gunzip jparse path query resp
      = { response := resp, rebuilt := false, logPreview := none } := by
  have hn : ¬(path = "/run" ∧ resp.status = 200) := by tauto
  simp [process_run_response, hn]

/-- Witness for C4 at a concrete non-run path. -/
theorem C4_non_run_passthrough_witness :
    process_run_response (fun _ => none) (fun _ => none) "/docs" [] gzipped200
      = { response := gzipped200, rebuilt := false, logPreview := none } :=
  C4_non_run_passthrough (fun _ => none) (fun _ => none) "/docs" [] gzipped200
    (Or.inl (by decide))

/-- C5: for a `/run` response with status 200, the emitted response
(status, headers, body bytes, media type) and the buffering behavior do
not depend on the observability functions — replacing the gunzip/JSON
decode steps by always-failing ones (or any others) leaves the emitted
response identical; only the log preview differs. -/
theorem C5_observability_failures_do_not_change_response
    (g1 g2 : List Nat → Option (List Nat)) (j1 j2 : List Nat → Option JVal)
    (path : String) (query : List (String × String)) (resp : HttpResponse)
    (hpath : path = "/run") (hstatus : resp.status = 200) :
    (process_run_response g1 j1 path query resp).response
      = (process_run_response g2 j2 path query resp).response ∧
    (process_run_response g1 j1 path query resp).rebuilt
      = (process_run_response g2 j2 path query resp).rebuilt := by
  subst hpath
  simp [process_run_response, hstatus, buildRunResponse]

/-- Witness for C5: a failing and a succeeding observability pipeline emit
the same response on a concrete gzipped 200 `/run` response. -/
theorem C5_observability_witness :
    (process_run_response (fun _ => none) (fun _ => none) "/run" [] gzipped200).response
      = (process_run_response (fun b => some b) (fun _ => some JVal.null) "/run" []
          gzipped200).response ∧
    (process_run_response (fun _ => none) (fun _ => none) "/run" [] gzipped200).rebuilt
      = (process_run_response (fun b => some b) (fun _ => some JVal.null) "/run" []
          gzipped200).rebuilt :=
  C5_observability_failures_do_not_change_response (fun _ => none) (fun b => some b)
    (fun _ => none) (fun _ => some JVal.null) "/run" [] gzipped200 rfl rfl

/-- C9: the compression stage (modelled from the spec, see
`gzip_middleware`) leaves a body of fewer than 1000 bytes untouched, and
content-encodes a body of at least 1000 bytes for a compressible
request. -/
theorem C9_gzip_threshold (compress : List Nat → List Nat)
    (acceptsGzip : Bool) (resp : HttpResponse) :
    (resp.body.length < 1000 → gzip_middleware compress acceptsGzip resp = resp) ∧
    (acceptsGzip = true → 1000 ≤ resp.body.length →
      headersGet (gzip_middleware compress acceptsGzip resp).headers
        "content-encoding" = some "gzip") := by
  constructor
  · intro hlt
    have hn : ¬(acceptsGzip = true ∧ 1000 ≤ resp.body.length) := by
      rintro ⟨-, hge⟩
      omega
    simp [gzip_middleware, hn]
  · intro ha hge
    have hc : pyLower "content-encoding" = "content-encoding" := by decide
    simp [gzip_middleware, ha, hge, headersGet, hc, pyDictGet_insert_self]

/-- A concrete 1000-byte uncompressed response body. -/
def bigPlain200 : HttpResponse :=
  { status := 200
    headers := [("content-length", "1000"), ("content-type", "application/json")]
    body := List.replicate 1000 0
    mediaType := some "application/json" }

/-- Witness for C9: the empty-bodied response passes through unchanged and
the 1000-byte response gets the gzip content-encoding. -/
theorem C9_gzip_threshold_witness :
    gzip_middleware id true { gzipped200 with body := [] }
      = { gzipped200 with body := [] } ∧
    headersGet (gzip_middleware id true bigPlain200).headers "content-encoding"
      = some "gzip" :=
  ⟨(C9_gzip_threshold id true { gzipped200 with body := [] }).1 (by decide),
   (C9_gzip_threshold id true bigPlain200).2 rfl
     (by show 1000 ≤ (List.replicate 1000 (0 : Nat)).length
         rw [List.length_replicate])⟩

/-- The prioritized session-id field names tried by the test driver
(`test_run_endpoint.py:104` and `test_run_endpoint.py:398`). -/
def possible_id_fields : List String := ["sessionId", "id", "session_id", "session"]

/-- The candidate-field loop at `test_run_endpoint.py:106-111`: starting
from `None`, take the value of the first candidate field present in the
session object and break. -/
def firstPresent (fields : List String) (session : List (String × JVal)) : Option JVal :=
  match fields with
  | [] => none
  | f :: rest =>
      match jGet session f with
      | some v => some v
      | none => firstPresent rest session

/-- `check_session_exists` (`test_run_endpoint.py:17-35`): true exactly
when the existence GET returns status 200; any other status, and any
raised exception (`none`), yields false. -/
def check_session_exists (getStatus : Option Nat) : Bool :=
  decide (getStatus = some 200)

/-- Outcome of the session-create POST as seen through
`response.raise_for_status()`: it returns normally on success, raises
`requests.exceptions.HTTPError` carrying the response status, or the
request itself raises some other exception. -/
inductive CreateCallResult where
  | success
  | httpError (status : Nat)
  | requestError
  deriving DecidableEq

/-- The session-reuse candidate of `create_session`
(`test_run_endpoint.py:95-117`): from a nonempty discovery result, the
first session's extracted id — kept only when it is truthy
(`if not session_id:` falls through to creation otherwise). -/
def reusedSession (active_sessions : List (List (String × JVal))) : Option JVal :=
  match active_sessions with
  | [] => none
  | first :: _ =>
      match firstPresent possible_id_fields first with
      | some v => if pyTruthy v then some v else none
      | none => none

/-- `create_session` (`test_run_endpoint.py:91-169`).  The external HTTP
world enters as inputs: `active_sessions` is what `get_active_sessions`
returned, `createResult` the outcome of the create POST for the freshly
generated `newId` (`str(uuid.uuid4())`), and `checkStatus` the status the
existence GET would report for `newId`.  The result pairs the Python
return/raise (exception text abbreviated to a fixed description) with a
flag recording whether the create POST was issued. -/
def create_session (active_sessions : List (List (String × JVal)))
    (newId : String) (createResult : CreateCallResult)
    (checkStatus : Option Nat) : Except String JVal × Bool :=
  match reusedSession active_sessions with
  | some v => (Except.ok v, false)
  | none =>
      match createResult with
      | .success =>
          if check_session_exists checkStatus then (Except.ok (JVal.str newId), true)
          else (Except.error "Failed to create session: Session was created but verification failed", true)
      | .httpError st =>
          if st = 409 ∧ check_session_exists checkStatus then
            (Except.ok (JVal.str newId), true)
          else (Except.error "Failed to create session: HTTP error", true)
      | .requestError =>
          (Except.error "Failed to create session: request error", true)

/-- C6: the claim says that whenever some candidate field is present in
the first discovered session, `create_session` returns that field's value
without issuing a create call.  The extraction does take the first
candidate field present, but the returned value is additionally required
to be truthy (`test_run_endpoint.py:113`): with a first session whose
`sessionId` is the empty string, the field is present, yet the driver
issues a create call and returns the freshly generated id instead. -/
theorem C6_falsy_extracted_id_counterexample :
    jGet [("sessionId", JVal.str "")] "sessionId" = some (JVal.str "") ∧
    firstPresent possible_id_fields [("sessionId", JVal.str "")]
      = some (JVal.str "") ∧
    (create_session [[("sessionId", JVal.str "")]] "fresh-id"
        CreateCallResult.success (some 200)).2 = true ∧
    (create_session [[("sessionId", JVal.str "")]] "fresh-id"
        CreateCallResult.success (some 200)).1
      = Except.ok (JVal.str "fresh-id") :=
  ⟨rfl, rfl, rfl, rfl⟩

/-- C6 (amended): the identifier extracted from the first discovered
session is the value of the first field present among `possible_id_fields`;
`create_session` returns it without issuing a create call exactly when
that value is truthy, and falls through to the session-creation path (the
same computation as with no discovered sessions) when no candidate field
is present or the extracted value is falsy. -/
theorem C6_first_present_field_reuse (first : List (String × JVal))
    (rest : List (List (String × JVal))) (newId : String)
    (createResult : CreateCallResult) (checkStatus : Option Nat) :
    (∀ v, firstPresent possible_id_fields first = some v → pyTruthy v = true →
      create_session (first :: rest) newId createResult checkStatus
        = (Except.ok v, false)) ∧
    (∀ v, firstPresent possible_id_fields first = some v → pyTruthy v = false →
      create_session (first :: rest) newId createResult checkStatus
        = create_session [] newId createResult checkStatus) ∧
    (firstPresent possible_id_fields first = none →
      create_session (first :: rest) newId createResult checkStatus
        = create_session [] newId createResult checkStatus) := by
  refine ⟨?_, ?_, ?_⟩
  · intro v h ht
    simp [create_session, reusedSession, h, ht]
  · intro v h ht
    simp [create_session, reusedSession, h, ht]
  · intro h
    simp [create_session, reusedSession, h]

/-- Witness for the amended C6: a truthy id in the second candidate field
is reused with no create call; a present-but-empty `sessionId` and a
session with no candidate field both fall through to creation. -/
theorem C6_first_present_field_reuse_witness :
    create_session [[("id", JVal.str "s1")]] "n" CreateCallResult.success
        (some 200) = (Except.ok (JVal.str "s1"), false) ∧
    create_session [[("sessionId", JVal.str "")]] "n" CreateCallResult.success
        (some 200)
      = create_session [] "n" CreateCallResult.success (some 200) ∧
    create_session [[("foo", JVal.str "x")]] "n" CreateCallResult.success
        (some 200)
      = create_session [] "n" CreateCallResult.success (some 200) :=
  ⟨(C6_first_present_field_reuse [("id", JVal.str "s1")] [] "n"
      CreateCallResult.success (some 200)).1 (JVal.str "s1") rfl rfl,
   (C6_first_present_field_reuse [("sessionId", JVal.str "")] [] "n"
      CreateCallResult.success (some 200)).2.1 (JVal.str "") rfl rfl,
   (C6_first_present_field_reuse [("foo", JVal.str "x")] [] "n"
      CreateCallResult.success (some 200)).2.2 rfl⟩

/-- C7: when no session is reused, a 409 on the create POST is treated as
"already exists" and the generated id is returned iff the read-back
existence check succeeds; a successful create is likewise verified by the
read-back, returning the id iff the check succeeds and raising otherwise;
and the read-back check succeeds exactly on a 200 from the existence
endpoint. -/
theorem C7_create_verified_by_readback
    (active_sessions : List (List (String × JVal))) (newId : String)
    (checkStatus : Option Nat) (h : reusedSession active_sessions = none) :
    ((create_session active_sessions newId (CreateCallResult.httpError 409)
        checkStatus).1 = Except.ok (JVal.str newId)
      ↔ check_session_exists checkStatus = true) ∧
    ((create_session active_sessions newId CreateCallResult.success
        checkStatus).1 = Except.ok (JVal.str newId)
      ↔ check_session_exists checkStatus = true) ∧
    (check_session_exists checkStatus = false →
      (create_session active_sessions newId CreateCallResult.success
          checkStatus).1
        = Except.error "Failed to create session: Session was created but verification failed") ∧
    (check_session_exists checkStatus = true ↔ checkStatus = some 200) := by
  refine ⟨?_, ?_, ?_, ?_⟩
  · by_cases hc : check_session_exists checkStatus = true <;>
      simp [create_session, h, hc]
  · by_cases hc : check_session_exists checkStatus = true <;>
      simp [create_session, h, hc]
  · intro hc
    simp [create_session, h, hc]
  · simp [check_session_exists]

/-- Witness for C7 at concrete outcomes: with no discovered sessions, a
409 followed by a 200 read-back returns the generated id, and a
successful create followed by a failed read-back raises. -/
theorem C7_create_verified_by_readback_witness :
    ((create_session [] "w" (CreateCallResult.httpError 409) (some 200)).1
        = Except.ok (JVal.str "w")
      ↔ check_session_exists (some 200) = true) ∧
    ((create_session [] "w" CreateCallResult.success (some 404)).1
        = Except.ok (JVal.str "w")
      ↔ check_session_exists (some 404) = true) ∧
    (check_session_exists (some 404) = false →
      (create_session [] "w" CreateCallResult.success (some 404)).1
        = Except.error "Failed to create session: Session was created but verification failed") :=
  ⟨(C7_create_verified_by_readback [] "w" (some 200) rfl).1,
   (C7_create_verified_by_readback [] "w" (some 404) rfl).2.1,
   (C7_create_verified_by_readback [] "w" (some 404) rfl).2.2.1⟩

/-- Help flag check of the driver's main block
(`test_run_endpoint.py:666`). -/
def argsHelp (args : List String) : Bool :=
  args.contains "--help" || args.contains "-h"

/-- List-sessions dispatch check (`test_run_endpoint.py:694-697`): only
examined when some argument was given. -/
def argsListSessions (args : List String) : Bool :=
  !args.isEmpty && args.contains "--list-sessions"

/-- Complex-query flag (`test_run_endpoint.py:700-701`). -/
def argsComplex (args : List String) : Bool :=
  !args.isEmpty && args.contains "--complex"

/-- The `use_fresh` variable: initialized to `True`
(`test_run_endpoint.py:661`, "Default is now using fresh session") and
set to `False` only by `--no-fresh` (`test_run_endpoint.py:703-704`).
There is no parsing of a `--fresh` token: fresh is the default. -/
def argsUseFresh (args : List String) : Bool :=
  !(!args.isEmpty && args.contains "--no-fresh")

/-- The value-taking option scan (`test_run_endpoint.py:707-716`): walk
the arguments, consuming `--session <id>` and `--question <text>` pairs;
a later occurrence overwrites an earlier one; a trailing option with no
value is skipped. -/
def extractOpts : List String → Option String → Option String →
    Option String × Option String
  | [], sid, q => (sid, q)
  | a :: rest, sid, q =>
      if a = "--session" then
        match rest with
        | v :: rest2 => extractOpts rest2 (some v) q
        | [] => (sid, q)
      else if a = "--question" then
        match rest with
        | v :: rest2 => extractOpts rest2 sid (some v)
        | [] => (sid, q)
      else extractOpts rest sid q

/-- The driver behavior selected by the main block's dispatch
(`test_run_endpoint.py:719-756`).  The `reuse*` actions are the no-fresh
paths that go through `create_session` (reusing an existing session when
one is discovered). -/
inductive DriverAction where
  | showHelp
  | listSessions
  | specificSession (sessionId : String) (question : Option String)
  | freshSimple (question : Option String)
  | freshComplex (question : Option String)
  | reuseComplexCustom (question : String)
  | reuseComplexDefault
  | reuseSimpleCustom (question : String)
  | reuseSimpleDefault
  deriving DecidableEq

/-- The dispatch taken once help/list-sessions are ruled out and the
`--session` value (if any) has been found falsy or absent
(`test_run_endpoint.py:723-756`): `use_fresh` selects the fresh-session
paths, otherwise a truthy custom question selects the
create-or-reuse-plus-custom-question paths. -/
def nonSessionDispatch (useFresh useComplex : Bool) (q : Option String) :
    DriverAction :=
  if useFresh then
    if useComplex then .freshComplex q else .freshSimple q
  else if useComplex then
    match q with
    | some s => if s ≠ "" then .reuseComplexCustom s else .reuseComplexDefault
    | none => .reuseComplexDefault
  else
    match q with
    | some s => if s ≠ "" then .reuseSimpleCustom s else .reuseSimpleDefault
    | none => .reuseSimpleDefault

/-- The complete main-block dispatch (`test_run_endpoint.py:654-756`):
help first, then list-sessions, then a truthy `--session` value, then the
`use_fresh` / `use_complex` / custom-question combination. -/
def mainDispatch (args : List String) : DriverAction :=
  if argsHelp args then .showHelp
  else if argsListSessions args then .listSessions
  else
    let so := extractOpts args none none
    match so.1 with
    | some s =>
        if s ≠ "" then .specificSession s so.2
        else nonSessionDispatch (argsUseFresh args) (argsComplex args) so.2
    | none => nonSessionDispatch (argsUseFresh args) (argsComplex args) so.2

/-- C8: the claim says the default behavior with neither `--session` nor
`--fresh` present is the no-fresh (reuse existing session) path.  It is
not: `use_fresh` is initialized to `True` (`test_run_endpoint.py:661`),
so with no flags at all the driver takes the fresh-session path, and the
reuse path requires an explicit `--no-fresh`. -/
theorem C8_default_is_fresh_counterexample :
    mainDispatch [] = DriverAction.freshSimple none ∧
    DriverAction.freshSimple none ≠ DriverAction.reuseSimpleDefault :=
  ⟨rfl, by decide⟩

/-- C8 (amended): outside the help/list-sessions modes, a non-empty
`--session` value wins over everything else; with no (or an empty)
session value, `use_fresh` — true by default, cleared only by
`--no-fresh` — selects the fresh-session path (complex or simple per
`--complex`); the default with no flags is the fresh simple path; and the
no-fresh (reuse) paths are taken exactly when `--no-fresh` was given. -/
theorem C8_cli_precedence (args : List String) (hh : argsHelp args = false)
    (hl : argsListSessions args = false) :
    (∀ s q, extractOpts args none none = (some s, q) → s ≠ "" →
      mainDispatch args = DriverAction.specificSession s q) ∧
    ((extractOpts args none none).1 = none → argsUseFresh args = true →
      mainDispatch args
        = (if argsComplex args then
            DriverAction.freshComplex (extractOpts args none none).2
          else DriverAction.freshSimple (extractOpts args none none).2)) ∧
    (mainDispatch [] = DriverAction.freshSimple none) ∧
    ((extractOpts args none none).1 = none → argsUseFresh args = false →
      mainDispatch args
        = nonSessionDispatch false (argsComplex args)
            (extractOpts args none none).2) := by
  refine ⟨?_, ?_, rfl, ?_⟩
  · intro s q he hs
    simp [mainDispatch, hh, hl, he, hs]
  · intro he hf
    rcases hq : (extractOpts args none none).2 with _ | q
    · by_cases hcx : argsComplex args = true <;>
        simp [mainDispatch, nonSessionDispatch, hh, hl, he, hf, hq, hcx]
    · by_cases hcx : argsComplex args = true <;>
        simp [mainDispatch, nonSessionDispatch, hh, hl, he, hf, hq, hcx]
  · intro he hf
    simp [mainDispatch, hh, hl, he, hf]

/-- Witness for the amended C8 at concrete command lines: `--session abc`
beats the fresh default, `--complex` alone goes to the fresh complex
path, no flags go to the fresh simple path, and `--no-fresh` selects the
reuse path. -/
theorem C8_cli_precedence_witness :
    mainDispatch ["--session", "abc", "--question", "hi"]
      = DriverAction.specificSession "abc" (some "hi") ∧
    mainDispatch ["--complex"] = DriverAction.freshComplex none ∧
    mainDispatch [] = DriverAction.freshSimple none ∧
    mainDispatch ["--no-fresh"]
      = nonSessionDispatch false false none :=
  ⟨(C8_cli_precedence ["--session", "abc", "--question", "hi"] rfl rfl).1
      "abc" (some "hi") rfl (by decide),
   (C8_cli_precedence ["--complex"] rfl rfl).2.1 rfl rfl,
   (C8_cli_precedence [] rfl rfl).2.2.1,
   (C8_cli_precedence ["--no-fresh"] rfl rfl).2.2.2 rfl rfl⟩

/-- One printed block of `format_response_output`
(`test_run_endpoint.py:335-383`): the text of a part, a tool-use block
(tool name plus the printed arguments), or a generic labeled dump of any
other non-`None` part field. -/
inductive OutItem where
  | textOut (v : JVal)
  | toolUsed (name : JVal) (args : JVal)
  | genericOut (key : String) (value : JVal)

/-- The printed tool name (`test_run_endpoint.py:360`):
`tool.get('name', 'Unknown Tool')`. -/
def toolName (tool : List (String × JVal)) : JVal :=
  (jGet tool "name").getD (JVal.str "Unknown Tool")

/-- The printed tool arguments (`test_run_endpoint.py:362-366`): try
`json.loads(tool.get("args", "\x7b\x7d"))` and print the decoded value;
on any failure (decode error, or `args` not being a string at all) print
the raw value.  `jdec` stands for `json.loads` on strings. -/
def toolArgsPrinted (jdec : String → Option JVal)
    (tool : List (String × JVal)) : JVal :=
  let raw := (jGet tool "args").getD (JVal.str "\x7b\x7d")
  match raw with
  | .str s =>
      match jdec s with
      | some v => v
      | none => raw
  | _ => raw

/-- The generic labeled dump over a part's items
(`test_run_endpoint.py:370-381`): every field, in insertion order, whose
key is neither `text` nor `function_call` and whose value is not `None`
is printed. -/
def genericItems (fs : List (String × JVal)) : List OutItem :=
  fs.filterMap (fun kv =>
    if kv.1 = "text" ∨ kv.1 = "function_call" then none
    else
      match kv.2 with
      | .null => none
      | v => some (OutItem.genericOut kv.1 v))

/-- Formatting of one part (`test_run_endpoint.py:352-381`): a present
truthy `text` field is printed, then a present `function_call` field is
printed as a tool-use block, then the generic dump runs over all
remaining fields — the three branches are separate `if`s, not an
`elif` chain.  A `function_call` value that is not an object makes
`tool.get` raise (`AttributeError`), and a part that is not an object
fails while being examined; both are modelled as `Except.error ()`
(the exception aborts the whole printing call). -/
def formatPart (jdec : String → Option JVal) (part : JVal) :
    Except Unit (List OutItem) :=
  match part with
  | .obj fs =>
      let textItems :=
        match jGet fs "text" with
        | some v => if pyTruthy v then [OutItem.textOut v] else []
        | none => []
      match jGet fs "function_call" with
      | some (.obj tool) =>
          Except.ok (textItems
            ++ [OutItem.toolUsed (toolName tool) (toolArgsPrinted jdec tool)]
            ++ genericItems fs)
      | some _ => Except.error ()
      | none => Except.ok (textItems ++ genericItems fs)
  | _ => Except.error ()

/-- Formatting of a part list, in order, concatenating the printed
blocks (`test_run_endpoint.py:352`). -/
def formatParts (jdec : String → Option JVal) :
    List JVal → Except Unit (List OutItem)
  | [] => Except.ok []
  | p :: rest => do
      let out ← formatPart jdec p
      let outRest ← formatParts jdec rest
      Except.ok (out ++ outRest)

/-- The role test at `test_run_endpoint.py:349-350`:
`event["content"].get("role", "") == "model"`.  A missing role defaults
to `""` and a non-string role is simply unequal to `"model"`. -/
def contentRoleIsModel (cf : List (String × JVal)) : Bool :=
  match jGet cf "role" with
  | some (.str s) => s == "model"
  | some _ => false
  | none => false

/-- Formatting of one event (`test_run_endpoint.py:347-381`): nothing is
printed unless `content` is present, non-`None`, its role is `"model"`
and its `parts` field is present and truthy.  A non-object `content`
makes `.get` raise, and a truthy non-list `parts` fails during
iteration; both are modelled as `Except.error ()`. -/
def formatEvent (jdec : String → Option JVal)
    (event : List (String × JVal)) : Except Unit (List OutItem) :=
  match jGet event "content" with
  | none => Except.ok []
  | some .null => Except.ok []
  | some (.obj cf) =>
      if contentRoleIsModel cf then
        match jGet cf "parts" with
        | some (.arr parts) =>
            if parts.isEmpty then Except.ok [] else formatParts jdec parts
        | some v => if pyTruthy v then Except.error () else Except.ok []
        | none => Except.ok []
      else Except.ok []
  | some _ => Except.error ()

/-- `format_response_output` (`test_run_endpoint.py:335-383`) over the
event list of a `/run` response, concatenating each event's printed
blocks in order. -/
def format_response_output (jdec : String → Option JVal) :
    List (List (String × JVal)) → Except Unit (List OutItem)
  | [] => Except.ok []
  | e :: rest => do
      let out ← formatEvent jdec e
      let outRest ← format_response_output jdec rest
      Except.ok (out ++ outRest)

/-- A field that survives the generic-dump filter contributes its labeled
block to `genericItems`. -/
theorem genericItems_mem (fs : List (String × JVal)) (k : String) (v : JVal)
    (hmem : (k, v) ∈ fs) (hk : ¬(k = "text" ∨ k = "function_call"))
    (hv : v ≠ JVal.null) :
    OutItem.genericOut k v ∈ genericItems fs := by
  unfold genericItems
  refine List.mem_filterMap.mpr ⟨(k, v), hmem, ?_⟩
  rw [if_neg hk]
  cases v with
  | null => exact absurd rfl hv
  | bool b => rfl
  | num n => rfl
  | str s => rfl
  | arr elems => rfl
  | obj fields => rfl

/-- C10: the three rendering branches of a model-role part are applied
independently: a part with a truthy `text` field and a `function_call`
object has both printed (followed by the generic dump of its remaining
fields); every remaining field with a non-`None` value appears in the
generic dump of any successfully formatted part; and an event whose
`content` is absent, `None`, or whose role is not `"model"` produces no
output. -/
theorem C10_format_branches_independent (jdec : String → Option JVal)
    (fs : List (String × JVal)) (event : List (String × JVal)) :
    (∀ tv tool, jGet fs "text" = some tv → pyTruthy tv = true →
      jGet fs "function_call" = some (JVal.obj tool) →
      formatPart jdec (JVal.obj fs)
        = Except.ok (OutItem.textOut tv
            :: OutItem.toolUsed (toolName tool) (toolArgsPrinted jdec tool)
            :: genericItems fs)) ∧
    (∀ k v out, formatPart jdec (JVal.obj fs) = Except.ok out →
      (k, v) ∈ fs → ¬(k = "text" ∨ k = "function_call") → v ≠ JVal.null →
      OutItem.genericOut k v ∈ out) ∧
    (jGet event "content" = none → formatEvent jdec event = Except.ok []) ∧
    (jGet event "content" = some JVal.null →
      formatEvent jdec event = Except.ok []) ∧
    (∀ cf, jGet event "content" = some (JVal.obj cf) →
      contentRoleIsModel cf = false →
      formatEvent jdec event = Except.ok []) := by
  refine ⟨?_, ?_, ?_, ?_, ?_⟩
  · intro tv tool ht htruthy hfc
    simp [formatPart, ht, htruthy, hfc]
  · intro k v out hout hmem hk hv
    have hg : OutItem.genericOut k v ∈ genericItems fs :=
      genericItems_mem fs k v hmem hk hv
    rcases hfc : jGet fs "function_call" with _ | fv
    · simp only [formatPart, hfc, Except.ok.injEq] at hout
      subst hout
      exact List.mem_append.mpr (Or.inr hg)
    · cases fv with
      | obj tool =>
          simp only [formatPart, hfc, Except.ok.injEq] at hout
          subst hout
          refine List.mem_append.mpr (Or.inr hg)
      | null => simp [formatPart, hfc] at hout
      | bool b => simp [formatPart, hfc] at hout
      | num n => simp [formatPart, hfc] at hout
      | str s => simp [formatPart, hfc] at hout
      | arr elems => simp [formatPart, hfc] at hout
  · intro h
    simp [formatEvent, h]
  · intro h
    simp [formatEvent, h]
  · intro cf h hrole
    simp [formatEvent, h, hrole]

/-- Witness for C10 on concrete data: a part holding both a text and a
function call prints the text, the tool block and the generic dump of its
extra field; the extra field's block is a member of that output; and
events with a `None` content or a user-role content print nothing. -/
theorem C10_format_branches_independent_witness :
    formatPart (fun _ => none)
        (JVal.obj [("text", JVal.str "hello"),
          ("function_call", JVal.obj [("name", JVal.str "search"),
            ("args", JVal.str "\x7b\x7d")]),
          ("extra", JVal.num 5)])
      = Except.ok [OutItem.textOut (JVal.str "hello"),
          OutItem.toolUsed (JVal.str "search") (JVal.str "\x7b\x7d"),
          OutItem.genericOut "extra" (JVal.num 5)] ∧
    OutItem.genericOut "extra" (JVal.num 5)
      ∈ [OutItem.textOut (JVal.str "hello"),
          OutItem.toolUsed (JVal.str "search") (JVal.str "\x7b\x7d"),
          OutItem.genericOut "extra" (JVal.num 5)] ∧
    formatEvent (fun _ => none) [("content", JVal.null)] = Except.ok [] ∧
    formatEvent (fun _ => none)
        [("content", JVal.obj [("role", JVal.str "user")])] = Except.ok [] :=
  ⟨(C10_format_branches_independent (fun _ => none)
      [("text", JVal.str "hello"),
       ("function_call", JVal.obj [("name", JVal.str "search"),
         ("args", JVal.str "\x7b\x7d")]),
       ("extra", JVal.num 5)] []).1 (JVal.str "hello")
      [("name", JVal.str "search"), ("args", JVal.str "\x7b\x7d")] rfl rfl rfl,
   (C10_format_branches_independent (fun _ => none)
      [("text", JVal.str "hello"),
       ("function_call", JVal.obj [("name", JVal.str "search"),
         ("args", JVal.str "\x7b\x7d")]),
       ("extra", JVal.num 5)] []).2.1 "extra" (JVal.num 5) _ rfl
      (List.Mem.tail _ (List.Mem.tail _ (List.Mem.head _)))
      (by decide) (by intro h; exact JVal.noConfusion h),
   (C10_format_branches_independent (fun _ => none) []
      [("content", JVal.null)]).2.2.2.1 rfl,
   (C10_format_branches_independent (fun _ => none) []
      [("content", JVal.obj [("role", JVal.str "user")])]).2.2.2.2
      [("role", JVal.str "user")] rfl rfl⟩
